import Mathlib

/-!
Shallow embedding of the `glair` configuration component of the
glair-vision-go SDK (file `config.go` of package `glair`).

The Go code defines a `Config` struct with seven fields, a constructor
`NewConfig`, a URL builder `GetEndpointURL` (`strings.Join` with `"/"`),
and five pointer-receiver setters (`WithCredentials`, `WithClient`,
`WithBaseURL`, `WithVersion`, `WithLogger`) that each check the receiver
for `nil`, mutate one field, and return the receiver.

Modelling choices:
- A Go `*Config` pointer is modelled as `Option Config`: `none` is the
  nil pointer.  A setter is a function `Option Config → args → Option Config`
  returning both the mutated state and the returned reference (in the Go
  code these coincide: the method returns its mutated receiver).
- Go interface values (`HTTPClient`, `Logger`) can be nil, so the fields
  `Client` and `Logger` hold `Option` values; the process-wide defaults
  are `some` values.  The concrete carriers `HTTPClient` and `Logger`
  are opaque-value types: the configuration code never inspects them,
  it only stores them, so any type with decidable equality is faithful;
  a `custom` constructor with a `Nat` tag supplies arbitrarily many
  distinct values.
- `GetEndpointURL` has no nil-receiver guard in the Go source; reading a
  field of a nil pointer panics at run time.  The pointer-level model
  `GetEndpointURLP` therefore returns `Except String String`, with the
  nil case mapped to the Go runtime panic message.
-/

/-- Opaque model of the Go `HTTPClient` interface values.  The Go type is
`interface { Do(req) (resp, error) }`; the configuration code only stores
such a value, never calls it, so only identity of values matters here.
`goDefault` stands for `http.DefaultClient`. -/
inductive HTTPClient where
  | goDefault : HTTPClient
  | custom : Nat → HTTPClient
deriving DecidableEq, Repr

/-- Log levels of the SDK logger; `levelNone` is `LevelNone`, the level of
the default logger (`&LeveledLogger{Level: LevelNone}`). -/
inductive LogLevel where
  | levelNone : LogLevel
  | levelError : LogLevel
  | levelWarn : LogLevel
  | levelInfo : LogLevel
  | levelDebug : LogLevel
deriving DecidableEq, Repr

/-- Opaque model of the Go `Logger` interface values.  `leveled l` stands
for a `*LeveledLogger` with level `l`; `custom` supplies arbitrarily many
further implementations of the interface. -/
inductive LoggerIface where
  | leveled : LogLevel → LoggerIface
  | custom : Nat → LoggerIface
deriving DecidableEq, Repr

/-- Go constant `defaultUrl = "https://api.vision.glair.ai"`. -/
def defaultUrl : String := "https://api.vision.glair.ai"

/-- Go constant `defaultVersion = "v1"`. -/
def defaultVersion : String := "v1"

/-- Go package variable `defaultClient = http.DefaultClient` (a non-nil
interface value, hence `some`). -/
def defaultClient : Option HTTPClient := some HTTPClient.goDefault

/-- Go package variable `defaultLogger = &LeveledLogger{Level: LevelNone}`
(a non-nil interface value, hence `some`). -/
def defaultLogger : Option LoggerIface := some (LoggerIface.leveled LogLevel.levelNone)

/-- The Go `Config` struct: credentials, base URL, API version, HTTP
client and logger.  Interface-typed fields are `Option`-valued because Go
interface values may be nil. -/
structure Config where
  Username : String
  Password : String
  ApiKey : String
  BaseUrl : String
  ApiVersion : String
  Client : Option HTTPClient
  Logger : Option LoggerIface
deriving DecidableEq, Repr

/-- Go `NewConfig(username, password, apiKey string) *Config`: builds a
fresh configuration with the supplied credentials and the package
defaults for the remaining four fields.  It always returns a non-nil
pointer, so the model returns a plain `Config`. -/
def NewConfig (username password apiKey : String) : Config :=
  { Username := username
    Password := password
    ApiKey := apiKey
    BaseUrl := defaultUrl
    ApiVersion := defaultVersion
    Client := defaultClient
    Logger := defaultLogger }

/-- Go `func (c *Config) GetEndpointURL(service, endpoint string) string`
on a non-nil receiver: `strings.Join([]string{c.BaseUrl, service,
c.ApiVersion, endpoint}, "/")`. -/
def Config.GetEndpointURL (c : Config) (service endpoint : String) : String :=
  String.intercalate "/" [c.BaseUrl, service, c.ApiVersion, endpoint]

/-- Pointer-level `GetEndpointURL`.  The Go method has no nil-receiver
guard: `c.BaseUrl` on a nil `c` panics with the Go runtime's nil pointer
dereference error, modelled as the `Except.error` branch. -/
def Config.GetEndpointURLP (c : Option Config) (service endpoint : String) :
    Except String String :=
  match c with
  | none =>
      Except.error "runtime error: invalid memory address or nil pointer dereference"
  | some cfg => Except.ok (cfg.GetEndpointURL service endpoint)

/-- Go `func (c *Config) WithCredentials(username, password, apiKey string) *Config`:
nil receiver returns nil; otherwise sets the three credential fields and
returns the receiver. -/
def Config.WithCredentials (c : Option Config)
    (username password apiKey : String) : Option Config :=
  match c with
  | none => none
  | some cfg =>
      some { cfg with Username := username, Password := password, ApiKey := apiKey }

/-- Go `func (c *Config) WithClient(client HTTPClient) *Config`:
nil receiver returns nil; otherwise sets `Client` and returns the
receiver. -/
def Config.WithClient (c : Option Config) (client : Option HTTPClient) :
    Option Config :=
  match c with
  | none => none
  | some cfg => some { cfg with Client := client }

/-- Go `func (c *Config) WithBaseURL(url string) *Config`:
nil receiver returns nil; otherwise sets `BaseUrl` and returns the
receiver. -/
def Config.WithBaseURL (c : Option Config) (url : String) : Option Config :=
  match c with
  | none => none
  | some cfg => some { cfg with BaseUrl := url }

/-- Go `func (c *Config) WithVersion(version string) *Config`:
nil receiver returns nil; otherwise sets `ApiVersion` and returns the
receiver. -/
def Config.WithVersion (c : Option Config) (version : String) : Option Config :=
  match c with
  | none => none
  | some cfg => some { cfg with ApiVersion := version }

/-- Go `func (c *Config) WithLogger(logger Logger) *Config`:
nil receiver returns nil; otherwise sets `Logger` and returns the
receiver. -/
def Config.WithLogger (c : Option Config) (logger : Option LoggerIface) :
    Option Config :=
  match c with
  | none => none
  | some cfg => some { cfg with Logger := logger }

/-- Claim C1: for every configuration and every pair of strings, the URL
builder returns exactly the slash-joined concatenation of base URL,
service, API version and endpoint — no escaping, no duplicate-slash
collapsing, no trailing-slash normalization of any segment (the equation
holds for arbitrary segment strings, slashes and all). -/
theorem getEndpointURL_eq_concat (c : Config) (service endpoint : String) :
    c.GetEndpointURL service endpoint
      = c.BaseUrl ++ "/" ++ service ++ "/" ++ c.ApiVersion ++ "/" ++ endpoint := by
  simp [Config.GetEndpointURL, String.intercalate, String.intercalate.go,
    String.append_assoc]

/-- Claim C2: `NewConfig u p k` stores the three inputs in the credential
fields and the fixed defaults `"https://api.vision.glair.ai"` and `"v1"`
in `BaseUrl` and `ApiVersion`. -/
theorem newConfig_fields (u p k : String) :
    (NewConfig u p k).Username = u ∧ (NewConfig u p k).Password = p ∧
    (NewConfig u p k).ApiKey = k ∧
    (NewConfig u p k).BaseUrl = "https://api.vision.glair.ai" ∧
    (NewConfig u p k).ApiVersion = "v1" :=
  ⟨rfl, rfl, rfl, rfl, rfl⟩

/-- Claim C3: each of the five setters, invoked on the nil configuration
pointer (`none`) with any argument value, returns nil; the model is a
pure total function, so there is no panic and no side effect on any
configuration state. -/
theorem setters_nil_safe (u p k url ver : String)
    (cl : Option HTTPClient) (lg : Option LoggerIface) :
    Config.WithCredentials none u p k = none ∧
    Config.WithClient none cl = none ∧
    Config.WithBaseURL none url = none ∧
    Config.WithVersion none ver = none ∧
    Config.WithLogger none lg = none :=
  ⟨rfl, rfl, rfl, rfl, rfl⟩

/-- Claim C4: on a non-nil configuration, calling any of the five setters
twice in succession with the same argument value leaves the configuration
in exactly the same observable state (all seven fields, hence equality of
the `Config` values) as calling it once. -/
theorem setters_idempotent (c : Config) (u p k url ver : String)
    (cl : Option HTTPClient) (lg : Option LoggerIface) :
    Config.WithCredentials (Config.WithCredentials (some c) u p k) u p k
      = Config.WithCredentials (some c) u p k ∧
    Config.WithClient (Config.WithClient (some c) cl) cl
      = Config.WithClient (some c) cl ∧
    Config.WithBaseURL (Config.WithBaseURL (some c) url) url
      = Config.WithBaseURL (some c) url ∧
    Config.WithVersion (Config.WithVersion (some c) ver) ver
      = Config.WithVersion (some c) ver ∧
    Config.WithLogger (Config.WithLogger (some c) lg) lg
      = Config.WithLogger (some c) lg :=
  ⟨rfl, rfl, rfl, rfl, rfl⟩

/-- Counterexample to claim C5 as stated: `WithCredentials` does not
mutate exactly one field of the seven-field `Config` struct — starting
from `NewConfig "a" "b" "c"` and calling it with `("x","y","z")`, both
the `Username` field and the `Password` field change (and so does
`ApiKey`), so more than one field is mutated. -/
theorem withCredentials_mutates_three_fields :
    (Config.WithCredentials (some (NewConfig "a" "b" "c")) "x" "y" "z").map Config.Username
      ≠ some (NewConfig "a" "b" "c").Username ∧
    (Config.WithCredentials (some (NewConfig "a" "b" "c")) "x" "y" "z").map Config.Password
      ≠ some (NewConfig "a" "b" "c").Password ∧
    (Config.WithCredentials (some (NewConfig "a" "b" "c")) "x" "y" "z").map Config.ApiKey
      ≠ some (NewConfig "a" "b" "c").ApiKey := by
  refine ⟨?_, ?_, ?_⟩ <;> decide

/-- Claim C5 (amended): on a non-nil configuration, `WithClient`,
`WithBaseURL`, `WithVersion` and `WithLogger` each write exactly their
one designated field and leave the other six fields unchanged, while
`WithCredentials` writes exactly the three credential fields
(`Username`, `Password`, `ApiKey`) and leaves the other four unchanged;
each returns the mutated configuration itself (in the model, the
returned pointer's contents coincide with the mutated state). -/
theorem setters_frame (c : Config) (u p k url ver : String)
    (cl : Option HTTPClient) (lg : Option LoggerIface) :
    (∃ c', Config.WithCredentials (some c) u p k = some c' ∧
      c'.Username = u ∧ c'.Password = p ∧ c'.ApiKey = k ∧
      c'.BaseUrl = c.BaseUrl ∧ c'.ApiVersion = c.ApiVersion ∧
      c'.Client = c.Client ∧ c'.Logger = c.Logger) ∧
    (∃ c', Config.WithClient (some c) cl = some c' ∧
      c'.Client = cl ∧ c'.Username = c.Username ∧ c'.Password = c.Password ∧
      c'.ApiKey = c.ApiKey ∧ c'.BaseUrl = c.BaseUrl ∧
      c'.ApiVersion = c.ApiVersion ∧ c'.Logger = c.Logger) ∧
    (∃ c', Config.WithBaseURL (some c) url = some c' ∧
      c'.BaseUrl = url ∧ c'.Username = c.Username ∧ c'.Password = c.Password ∧
      c'.ApiKey = c.ApiKey ∧ c'.ApiVersion = c.ApiVersion ∧
      c'.Client = c.Client ∧ c'.Logger = c.Logger) ∧
    (∃ c', Config.WithVersion (some c) ver = some c' ∧
      c'.ApiVersion = ver ∧ c'.Username = c.Username ∧ c'.Password = c.Password ∧
      c'.ApiKey = c.ApiKey ∧ c'.BaseUrl = c.BaseUrl ∧
      c'.Client = c.Client ∧ c'.Logger = c.Logger) ∧
    (∃ c', Config.WithLogger (some c) lg = some c' ∧
      c'.Logger = lg ∧ c'.Username = c.Username ∧ c'.Password = c.Password ∧
      c'.ApiKey = c.ApiKey ∧ c'.BaseUrl = c.BaseUrl ∧
      c'.ApiVersion = c.ApiVersion ∧ c'.Client = c.Client) :=
  ⟨⟨_, rfl, rfl, rfl, rfl, rfl, rfl, rfl, rfl⟩,
   ⟨_, rfl, rfl, rfl, rfl, rfl, rfl, rfl, rfl⟩,
   ⟨_, rfl, rfl, rfl, rfl, rfl, rfl, rfl, rfl⟩,
   ⟨_, rfl, rfl, rfl, rfl, rfl, rfl, rfl, rfl⟩,
   ⟨_, rfl, rfl, rfl, rfl, rfl, rfl, rfl, rfl⟩⟩

/-- Claim C6: `NewConfig` is total — for any three input strings it
returns a configuration — and in that configuration the interface-typed
fields hold the non-nil process defaults (`http.DefaultClient` and the
`LeveledLogger` at `LevelNone`), so every field is populated with a
non-null value. -/
theorem newConfig_total_nonnull (u p k : String) :
    ∃ c : Config, NewConfig u p k = c ∧
      c.Client.isSome = true ∧ c.Logger.isSome = true ∧
      c.Client = defaultClient ∧ c.Logger = defaultLogger :=
  ⟨NewConfig u p k, rfl, rfl, rfl, rfl, rfl⟩

/-- Claim C7: the concrete composition `NewConfig "u" "p" "k"` followed
by `GetEndpointURL "ocr" "ktp"` yields exactly
`"https://api.vision.glair.ai/ocr/v1/ktp"`. -/
theorem example_url_ocr_ktp :
    (NewConfig "u" "p" "k").GetEndpointURL "ocr" "ktp"
      = "https://api.vision.glair.ai/ocr/v1/ktp" := by decide

/-- Claim C8: for every configuration built by `NewConfig`, after the
chained calls `WithBaseURL "http://localhost:8080"` and
`WithVersion "v2"`, `GetEndpointURL "face" "liveness"` yields exactly
`"http://localhost:8080/face/v2/liveness"`. -/
theorem example_url_after_setters (u p k : String) :
    Config.GetEndpointURLP
      (Config.WithVersion
        (Config.WithBaseURL (some (NewConfig u p k)) "http://localhost:8080") "v2")
      "face" "liveness"
      = Except.ok "http://localhost:8080/face/v2/liveness" := rfl

/-- Claim C9: unlike the five setters, `GetEndpointURL` has no
nil-receiver guard — on the nil configuration pointer it takes the
unguarded field-dereference branch, modelled as the Go runtime's nil
pointer dereference panic, rather than degrading gracefully to a
nil/default result. -/
theorem getEndpointURL_nil_panics (service endpoint : String) :
    Config.GetEndpointURLP none service endpoint
      = Except.error "runtime error: invalid memory address or nil pointer dereference" ∧
    ∀ s : String, Config.GetEndpointURLP none service endpoint ≠ Except.ok s :=
  ⟨rfl, fun _ h => Except.noConfusion h⟩

/-- Claim C10 (noninterference): two non-nil configurations that agree on
`BaseUrl` and `ApiVersion` but may differ arbitrarily in `Username`,
`Password`, `ApiKey`, `Client` and `Logger` produce the same URL for
every `(service, endpoint)`; the function is pure, hence deterministic
and side-effect free. -/
theorem getEndpointURL_noninterference (c1 c2 : Config)
    (service endpoint : String)
    (hb : c1.BaseUrl = c2.BaseUrl) (hv : c1.ApiVersion = c2.ApiVersion) :
    c1.GetEndpointURL service endpoint = c2.GetEndpointURL service endpoint := by
  simp [Config.GetEndpointURL, hb, hv]

/-- Witness for C10: two concrete configurations differing in all five
non-URL fields yield the same URL. -/
theorem getEndpointURL_noninterference_witness :
    (NewConfig "u1" "p1" "k1").GetEndpointURL "ocr" "ktp"
      = (⟨"u2", "p2", "k2", defaultUrl, defaultVersion,
          some (HTTPClient.custom 5), some (LoggerIface.custom 7)⟩ : Config).GetEndpointURL
        "ocr" "ktp" :=
  getEndpointURL_noninterference _ _ _ _ rfl rfl
